import Mathlib

/-! Shallow embedding of src/repositories/gem_repository.py (Geo-Gemmer).

The repository is an in-memory dict `self._db : dict[int, HiddenGem]` wrapped
in a class GemRepository that is defined inside the module accessor
get_gem_repository.  We model the dict as an association list with Python
dict assignment semantics (assignment to an existing key replaces the value
in place, a new key is appended at the end), the random identifier draw of
`randint(0, 100_000)` as an oracle parameter ranging over 0..100000, and the
Python exceptions the code can raise as an explicit error type, so fallible
operations return `Except PyErr`.

The HiddenGem model class lives in src/models/hidden_gem.py, which is not
among the sources; its field list is modelled from the positional constructor
call in create_hidden_gem and from the data model section of the
specification.  The store performs no arithmetic on latitude/longitude, so
rationals stand in exactly for the stored float literals; Review values are
never interpreted by the store, which only holds and returns them, so
they get an abstract carrier with decidable equality. -/

/-- Modelled from the spec: Review entities (src/models/hidden_gem.py is not
among the sources) are never interpreted by the store, which only holds and returns
them without interpreting them; an abstract carrier with decidable equality. -/
structure Reviews where
  token : Nat
deriving DecidableEq, Repr

/-- Modelled from the spec and from the positional constructor call
`HiddenGem(name, new_id, latitude, longitude, gem_type, times_visited,
user_created, website_link, accessibility, gem_images, reviews)` in
create_hidden_gem (src/models/hidden_gem.py is not among the sources):
one point-of-interest record. -/
structure HiddenGem where
  name : String
  gem_id : Int
  latitude : Rat
  longitude : Rat
  gem_type : String
  times_visited : Int
  user_created : String
  website_link : String
  accessibility : List Bool
  gem_images : List String
  reviews : List Reviews
deriving DecidableEq, Repr

/-- The in-memory database `self._db : dict[int, HiddenGem]`, modelled as an
association list in insertion order (Python dicts preserve insertion order;
all states reachable through the repository have pairwise distinct keys). -/
abbrev Store := List (Int × HiddenGem)

/-- Python `self._db.get(k)`: the value stored under key `k`, or None
(here `none`) when the key is absent. -/
def dbGet (db : Store) (k : Int) : Option HiddenGem :=
  match db with
  | [] => none
  | (k2, g) :: rest => if k = k2 then some g else dbGet rest k

/-- Python `self._db[k] = g`: dict assignment replaces the value of an
existing key in place and appends a fresh key at the end. -/
def dbSet (db : Store) (k : Int) (g : HiddenGem) : Store :=
  match db with
  | [] => [(k, g)]
  | (k2, g2) :: rest => if k = k2 then (k2, g) :: rest else (k2, g2) :: dbSet rest k g

/-- Python exceptions that the repository code can raise. -/
inductive PyErr where
  /-- AttributeError from dereferencing the None that dict.get returns on a
  missing key (for example `self._db.get(hidden_gem_id).name`); it carries
  the attribute name, not the requested identifier. -/
  | attributeError (attr : String)
  /-- ValueError raised by the update operations with the message
  `hidden gem with id ... not found`; the identifier appears in the message. -/
  | valueErrorNotFound (gem_id : Int)
  /-- UnboundLocalError from reading a function-local variable before any
  assignment to it has executed; in Python it is a subclass of NameError. -/
  | unboundLocalError (var : String)
  /-- NameError from reading a global name that is not defined. -/
  | nameError (var : String)
deriving DecidableEq, Repr

/-- Whether an exception is a NameError: UnboundLocalError is a subclass of
NameError in Python, so both constructors count. -/
def PyErr.isNameError : PyErr → Bool
  | .unboundLocalError _ => true
  | .nameError _ => true
  | _ => false

/-- Modelled from the spec: the typed error `NotFoundError(id)` that the
specification requires from single-record gets and updates on a missing
identifier; this checks whether a raised exception is a typed not-found
error carrying exactly the requested identifier. -/
def isNotFoundErrorCarrying (e : PyErr) (i : Int) : Bool :=
  match e with
  | .valueErrorNotFound j => j = i
  | _ => false

/-- `get_all_hidden_gems`: returns `{**self._db}`, a shallow copy of the
whole dict; in the functional model the copy is the store itself. -/
def get_all_hidden_gems (db : Store) : Store :=
  db

/-- `get_hidden_gem_by_id`: `return self._db.get(hidden_gem_id)`; the record
when present, None otherwise, never an exception. -/
def get_hidden_gem_by_id (db : Store) (hidden_gem_id : Int) : Option HiddenGem :=
  dbGet db hidden_gem_id

/-- `create_hidden_gem`: draws `new_id = randint(0, 100_000)` (the draw is
the oracle parameter `draw`, whose type captures the randint range),
constructs the record, stores it with `self._db[new_id] = hidden_gem`
(unchecked against existing keys) and returns it.  Result: the new store
paired with the returned record. -/
def create_hidden_gem (db : Store) (draw : Fin 100001) (name : String)
    (latitude longitude : Rat) (gem_type : String) (times_visited : Int)
    (user_created : String) (website_link : String) (accessibility : List Bool)
    (gem_images : List String) (reviews : List Reviews) : Store × HiddenGem :=
  let new_id : Int := ((draw : Nat) : Int)
  let hidden_gem : HiddenGem :=
    ⟨name, new_id, latitude, longitude, gem_type, times_visited, user_created,
      website_link, accessibility, gem_images, reviews⟩
  (dbSet db new_id hidden_gem, hidden_gem)

/-- `get_name`: `return self._db.get(hidden_gem_id).name`; on a missing key
dict.get yields None and the attribute access raises AttributeError. -/
def get_name (db : Store) (hidden_gem_id : Int) : Except PyErr String :=
  match dbGet db hidden_gem_id with
  | none => .error (.attributeError "name")
  | some g => .ok g.name

/-- `get_cordinates`: evaluates `self._db.get(id).latitude` then
`self._db.get(id).longitude` on the unchanged store; on a missing key the
first attribute access already raises AttributeError. -/
def get_cordinates (db : Store) (hidden_gem_id : Int) : Except PyErr (Rat × Rat) :=
  match dbGet db hidden_gem_id with
  | none => .error (.attributeError "latitude")
  | some g => .ok (g.latitude, g.longitude)

/-- `get_gem_type`: `return self._db.get(hidden_gem_id).gem_type`. -/
def get_gem_type (db : Store) (hidden_gem_id : Int) : Except PyErr String :=
  match dbGet db hidden_gem_id with
  | none => .error (.attributeError "gem_type")
  | some g => .ok g.gem_type

/-- `get_times_visited`: `return self._db.get(hidden_gem_id).times_visited`. -/
def get_times_visited (db : Store) (hidden_gem_id : Int) : Except PyErr Int :=
  match dbGet db hidden_gem_id with
  | none => .error (.attributeError "times_visited")
  | some g => .ok g.times_visited

/-- `get_user_created`: `return self._db.get(hidden_gem_id).user_created`. -/
def get_user_created (db : Store) (hidden_gem_id : Int) : Except PyErr String :=
  match dbGet db hidden_gem_id with
  | none => .error (.attributeError "user_created")
  | some g => .ok g.user_created

/-- `get_website_link`: `return self._db.get(hidden_gem_id).website_link`. -/
def get_website_link (db : Store) (hidden_gem_id : Int) : Except PyErr String :=
  match dbGet db hidden_gem_id with
  | none => .error (.attributeError "website_link")
  | some g => .ok g.website_link

/-- `get_accessibility`: `return self._db.get(hidden_gem_id).accessibility`. -/
def get_accessibility (db : Store) (hidden_gem_id : Int) : Except PyErr (List Bool) :=
  match dbGet db hidden_gem_id with
  | none => .error (.attributeError "accessibility")
  | some g => .ok g.accessibility

/-- `get_gem_images`: `return self._db.get(hidden_gem_id).gem_images`. -/
def get_gem_images (db : Store) (hidden_gem_id : Int) : Except PyErr (List String) :=
  match dbGet db hidden_gem_id with
  | none => .error (.attributeError "gem_images")
  | some g => .ok g.gem_images

/-- `get_reviews`: `return self._db.get(hidden_gem_id).reviews`. -/
def get_reviews (db : Store) (hidden_gem_id : Int) : Except PyErr (List Reviews) :=
  match dbGet db hidden_gem_id with
  | none => .error (.attributeError "reviews")
  | some g => .ok g.reviews

/-- `update_name`: looks the record up, raises
ValueError with the message hidden gem with id ... not found when dict.get returned
None (a bare HiddenGem instance is always truthy, so `if not hidden_gem`
is exactly the None test), otherwise mutates the field of the stored record in
place and returns it.  Result: the raised-or-returned value paired with the
store afterwards (unchanged on the error path). -/
def update_name (db : Store) (hidden_gem_id : Int) (name : String) :
    Except PyErr HiddenGem × Store :=
  match dbGet db hidden_gem_id with
  | none => (.error (.valueErrorNotFound hidden_gem_id), db)
  | some hidden_gem =>
      let updated := { hidden_gem with name := name }
      (.ok updated, dbSet db hidden_gem_id updated)

/-- `update_cordinates`: same not-found check, then assigns latitude and
longitude on the stored record. -/
def update_cordinates (db : Store) (hidden_gem_id : Int) (latitude longitude : Rat) :
    Except PyErr HiddenGem × Store :=
  match dbGet db hidden_gem_id with
  | none => (.error (.valueErrorNotFound hidden_gem_id), db)
  | some hidden_gem =>
      let updated := { hidden_gem with latitude := latitude, longitude := longitude }
      (.ok updated, dbSet db hidden_gem_id updated)

/-- `update_gem_type`: same not-found check, then assigns gem_type. -/
def update_gem_type (db : Store) (hidden_gem_id : Int) (gem_type : String) :
    Except PyErr HiddenGem × Store :=
  match dbGet db hidden_gem_id with
  | none => (.error (.valueErrorNotFound hidden_gem_id), db)
  | some hidden_gem =>
      let updated := { hidden_gem with gem_type := gem_type }
      (.ok updated, dbSet db hidden_gem_id updated)

/-- `update_times_visited`: same not-found check, then assigns times_visited. -/
def update_times_visited (db : Store) (hidden_gem_id : Int) (times_visited : Int) :
    Except PyErr HiddenGem × Store :=
  match dbGet db hidden_gem_id with
  | none => (.error (.valueErrorNotFound hidden_gem_id), db)
  | some hidden_gem =>
      let updated := { hidden_gem with times_visited := times_visited }
      (.ok updated, dbSet db hidden_gem_id updated)

/-- `update_user_created`: same not-found check, then assigns user_created. -/
def update_user_created (db : Store) (hidden_gem_id : Int) (user_created : String) :
    Except PyErr HiddenGem × Store :=
  match dbGet db hidden_gem_id with
  | none => (.error (.valueErrorNotFound hidden_gem_id), db)
  | some hidden_gem =>
      let updated := { hidden_gem with user_created := user_created }
      (.ok updated, dbSet db hidden_gem_id updated)

/-- `update_website_link`: same not-found check, then assigns website_link. -/
def update_website_link (db : Store) (hidden_gem_id : Int) (website_link : String) :
    Except PyErr HiddenGem × Store :=
  match dbGet db hidden_gem_id with
  | none => (.error (.valueErrorNotFound hidden_gem_id), db)
  | some hidden_gem =>
      let updated := { hidden_gem with website_link := website_link }
      (.ok updated, dbSet db hidden_gem_id updated)

/-- `update_accessibility`: same not-found check, then assigns accessibility. -/
def update_accessibility (db : Store) (hidden_gem_id : Int) (accessibility : List Bool) :
    Except PyErr HiddenGem × Store :=
  match dbGet db hidden_gem_id with
  | none => (.error (.valueErrorNotFound hidden_gem_id), db)
  | some hidden_gem =>
      let updated := { hidden_gem with accessibility := accessibility }
      (.ok updated, dbSet db hidden_gem_id updated)

/-- `update_gem_images`: same not-found check, then assigns gem_images. -/
def update_gem_images (db : Store) (hidden_gem_id : Int) (gem_images : List String) :
    Except PyErr HiddenGem × Store :=
  match dbGet db hidden_gem_id with
  | none => (.error (.valueErrorNotFound hidden_gem_id), db)
  | some hidden_gem =>
      let updated := { hidden_gem with gem_images := gem_images }
      (.ok updated, dbSet db hidden_gem_id updated)

/-- `update_reviews`: same not-found check, then assigns reviews. -/
def update_reviews (db : Store) (hidden_gem_id : Int) (reviews : List Reviews) :
    Except PyErr HiddenGem × Store :=
  match dbGet db hidden_gem_id with
  | none => (.error (.valueErrorNotFound hidden_gem_id), db)
  | some hidden_gem =>
      let updated := { hidden_gem with reviews := reviews }
      (.ok updated, dbSet db hidden_gem_id updated)

/-- `clear_db`: `self._db = {}`, emptying the store. -/
def clear_db (_db : Store) : Store :=
  []

/-- Values that names can hold inside the module get_gem_repository: Python
None, the class object bound by the class statement, or a GemRepository
instance (identified with its store). -/
inductive PyValue where
  | noneV
  | classV
  | repoV (db : Store)
deriving DecidableEq, Repr

/-- Name lookup in one environment frame, a list of bindings. -/
def lookupEnv (env : List (String × PyValue)) (var : String) : Option PyValue :=
  match env with
  | [] => none
  | (k, v) :: rest => if var = k then some v else lookupEnv rest var

/-- Names assigned somewhere in the body of get_gem_repository: the class
statement binds GemRepository, and the singleton branch contains the
assignment `_user_repo = GemRepository()`. -/
def assignedInGetGemRepository : List String :=
  ["GemRepository", "_user_repo"]

/-- The only global declaration inside get_gem_repository is
`global _gem_repo`. -/
def globalDeclsInGetGemRepository : List String :=
  ["_gem_repo"]

/-- Python scoping: a name is a local variable of the function exactly when
it is assigned somewhere in the body and not named in a global declaration
of that function. -/
def isLocalOfGetGemRepository (var : String) : Bool :=
  assignedInGetGemRepository.contains var &&
    !(globalDeclsInGetGemRepository.contains var)

/-- Name resolution for an expression inside get_gem_repository: a local
name must be bound in the local frame, and reading it before any assignment
raises UnboundLocalError (a subclass of NameError); a non-local name falls
back to the module globals and raises NameError when absent there too. -/
def readNameInGetGemRepository (locals moduleGlobals : List (String × PyValue))
    (var : String) : Except PyErr PyValue :=
  if isLocalOfGetGemRepository var then
    match lookupEnv locals var with
    | some v => Except.ok v
    | none => Except.error (PyErr.unboundLocalError var)
  else
    match lookupEnv moduleGlobals var with
    | some v => Except.ok v
    | none => Except.error (PyErr.nameError var)

/-- Body of `get_gem_repository()` as it executes: the class statement binds
the local GemRepository, then `if _user_repo is None:` reads the name
_user_repo (a local of the function, because it is assigned later in the
body and the only global declaration names `_gem_repo` instead); on the
None branch the singleton is constructed and assigned, and finally
`return _user_repo` yields it.  The module globals (the module defines
`_gemr_repo = None` at top level) are a parameter. -/
def get_gem_repository (moduleGlobals : List (String × PyValue)) :
    Except PyErr PyValue := do
  let localsAfterClass : List (String × PyValue) := [("GemRepository", PyValue.classV)]
  let v ← readNameInGetGemRepository localsAfterClass moduleGlobals "_user_repo"
  if v = PyValue.noneV then
    Except.ok (PyValue.repoV [])
  else
    Except.ok v

/-- One store-mutating call to the repository; the oracle draw of
create_hidden_gem is recorded in the operation.  The read-only operations
(getters, get_all_hidden_gems, get_hidden_gem_by_id) never assign to the
dict, so they do not appear in a mutation trace. -/
inductive Op where
  | createOp (draw : Fin 100001) (name : String) (latitude longitude : Rat)
      (gem_type : String) (times_visited : Int) (user_created : String)
      (website_link : String) (accessibility : List Bool)
      (gem_images : List String) (reviews : List Reviews)
  | updateNameOp (gem_id : Int) (name : String)
  | updateCordinatesOp (gem_id : Int) (latitude longitude : Rat)
  | updateGemTypeOp (gem_id : Int) (gem_type : String)
  | updateTimesVisitedOp (gem_id : Int) (times_visited : Int)
  | updateUserCreatedOp (gem_id : Int) (user_created : String)
  | updateWebsiteLinkOp (gem_id : Int) (website_link : String)
  | updateAccessibilityOp (gem_id : Int) (accessibility : List Bool)
  | updateGemImagesOp (gem_id : Int) (gem_images : List String)
  | updateReviewsOp (gem_id : Int) (reviews : List Reviews)
  | clearOp
deriving Repr

/-- Effect of one operation on the store. -/
def applyOp (db : Store) : Op → Store
  | .createOp d nm la lo ty tv uc ws ac im rv =>
      (create_hidden_gem db d nm la lo ty tv uc ws ac im rv).1
  | .updateNameOp i nm => (update_name db i nm).2
  | .updateCordinatesOp i la lo => (update_cordinates db i la lo).2
  | .updateGemTypeOp i ty => (update_gem_type db i ty).2
  | .updateTimesVisitedOp i tv => (update_times_visited db i tv).2
  | .updateUserCreatedOp i uc => (update_user_created db i uc).2
  | .updateWebsiteLinkOp i ws => (update_website_link db i ws).2
  | .updateAccessibilityOp i ac => (update_accessibility db i ac).2
  | .updateGemImagesOp i im => (update_gem_images db i im).2
  | .updateReviewsOp i rv => (update_reviews db i rv).2
  | .clearOp => clear_db db

/-- Run a sequence of operations from a starting store. -/
def runOps (db : Store) (ops : List Op) : Store :=
  match ops with
  | [] => db
  | op :: rest => runOps (applyOp db op) rest

/-- The keys currently present in the store. -/
def storeKeys (db : Store) : List Int :=
  db.map Prod.fst

/-- Reachable-state invariant: keys are pairwise distinct and every key lies
in the randint range 0..100000. -/
def GoodStore (db : Store) : Prop :=
  (storeKeys db).Nodup ∧ ∀ p ∈ db, 0 ≤ p.1 ∧ p.1 ≤ 100000

/-- After `update_<field>(id, v)` on a live id holding record `g`: the call
returns the updated record, the store holds exactly `g` with only that field
overwritten (so every other field of the record under `id` is unchanged),
every other identifier maps to what it mapped to before, and the matching
getter now returns the new value.  One block of four facts per update
operation of the repository. -/
def updateGetIsolated (db : Store) (i : Int) (g : HiddenGem) (nm : String)
    (la lo : Rat) (ty : String) (tv : Int) (uc ws : String) (ac : List Bool)
    (im : List String) (rv : List Reviews) : Prop :=
  ((update_name db i nm).1 = Except.ok { g with name := nm } ∧
    dbGet (update_name db i nm).2 i = some { g with name := nm } ∧
    (∀ j, j ≠ i → dbGet (update_name db i nm).2 j = dbGet db j) ∧
    get_name (update_name db i nm).2 i = Except.ok nm) ∧
  ((update_cordinates db i la lo).1 =
      Except.ok { g with latitude := la, longitude := lo } ∧
    dbGet (update_cordinates db i la lo).2 i =
      some { g with latitude := la, longitude := lo } ∧
    (∀ j, j ≠ i → dbGet (update_cordinates db i la lo).2 j = dbGet db j) ∧
    get_cordinates (update_cordinates db i la lo).2 i = Except.ok (la, lo)) ∧
  ((update_gem_type db i ty).1 = Except.ok { g with gem_type := ty } ∧
    dbGet (update_gem_type db i ty).2 i = some { g with gem_type := ty } ∧
    (∀ j, j ≠ i → dbGet (update_gem_type db i ty).2 j = dbGet db j) ∧
    get_gem_type (update_gem_type db i ty).2 i = Except.ok ty) ∧
  ((update_times_visited db i tv).1 = Except.ok { g with times_visited := tv } ∧
    dbGet (update_times_visited db i tv).2 i = some { g with times_visited := tv } ∧
    (∀ j, j ≠ i → dbGet (update_times_visited db i tv).2 j = dbGet db j) ∧
    get_times_visited (update_times_visited db i tv).2 i = Except.ok tv) ∧
  ((update_user_created db i uc).1 = Except.ok { g with user_created := uc } ∧
    dbGet (update_user_created db i uc).2 i = some { g with user_created := uc } ∧
    (∀ j, j ≠ i → dbGet (update_user_created db i uc).2 j = dbGet db j) ∧
    get_user_created (update_user_created db i uc).2 i = Except.ok uc) ∧
  ((update_website_link db i ws).1 = Except.ok { g with website_link := ws } ∧
    dbGet (update_website_link db i ws).2 i = some { g with website_link := ws } ∧
    (∀ j, j ≠ i → dbGet (update_website_link db i ws).2 j = dbGet db j) ∧
    get_website_link (update_website_link db i ws).2 i = Except.ok ws) ∧
  ((update_accessibility db i ac).1 = Except.ok { g with accessibility := ac } ∧
    dbGet (update_accessibility db i ac).2 i = some { g with accessibility := ac } ∧
    (∀ j, j ≠ i → dbGet (update_accessibility db i ac).2 j = dbGet db j) ∧
    get_accessibility (update_accessibility db i ac).2 i = Except.ok ac) ∧
  ((update_gem_images db i im).1 = Except.ok { g with gem_images := im } ∧
    dbGet (update_gem_images db i im).2 i = some { g with gem_images := im } ∧
    (∀ j, j ≠ i → dbGet (update_gem_images db i im).2 j = dbGet db j) ∧
    get_gem_images (update_gem_images db i im).2 i = Except.ok im) ∧
  ((update_reviews db i rv).1 = Except.ok { g with reviews := rv } ∧
    dbGet (update_reviews db i rv).2 i = some { g with reviews := rv } ∧
    (∀ j, j ≠ i → dbGet (update_reviews db i rv).2 j = dbGet db j) ∧
    get_reviews (update_reviews db i rv).2 i = Except.ok rv)

/-- Every update operation applied to an identifier that is not live raises
ValueError carrying that identifier and leaves the store exactly as it was
(no record is created under the identifier). -/
def updatesFailUnchanged (db : Store) (i : Int) (nm : String) (la lo : Rat)
    (ty : String) (tv : Int) (uc ws : String) (ac : List Bool)
    (im : List String) (rv : List Reviews) : Prop :=
  update_name db i nm = (.error (.valueErrorNotFound i), db) ∧
  update_cordinates db i la lo = (.error (.valueErrorNotFound i), db) ∧
  update_gem_type db i ty = (.error (.valueErrorNotFound i), db) ∧
  update_times_visited db i tv = (.error (.valueErrorNotFound i), db) ∧
  update_user_created db i uc = (.error (.valueErrorNotFound i), db) ∧
  update_website_link db i ws = (.error (.valueErrorNotFound i), db) ∧
  update_accessibility db i ac = (.error (.valueErrorNotFound i), db) ∧
  update_gem_images db i im = (.error (.valueErrorNotFound i), db) ∧
  update_reviews db i rv = (.error (.valueErrorNotFound i), db)

/-- The randint oracle value 5, used in the concrete collision runs. -/
def draw5 : Fin 100001 := ⟨5, by decide⟩

/-- First create on an empty store, with the oracle drawing 5: the record is
named a. -/
def firstCreate : Store × HiddenGem :=
  create_hidden_gem [] draw5 "a" 1 2 "t" 0 "u" "w" [true] ["i"] [⟨1⟩]

/-- Second create on the resulting store, with the oracle drawing 5 again:
the record is named b and overwrites the first one. -/
def secondCreate : Store × HiddenGem :=
  create_hidden_gem firstCreate.1 draw5 "b" 3 4 "t2" 1 "u2" "w2" [false] ["j"] [⟨2⟩]

/-- A live record used to instantiate the hypothetical theorems. -/
def demoGem : HiddenGem :=
  ⟨"Old Mill", 5, 103 / 2, -1 / 10, "historic", 0, "alice", "", [true, false], [], []⟩

/-- A store holding demoGem under identifier 5. -/
def demoDb : Store :=
  [(5, demoGem)]

/-- A one-create trace used to instantiate the reachable-state theorem. -/
def demoOps : List Op :=
  [Op.createOp draw5 "a" 1 2 "t" 0 "u" "w" [true] ["i"] [⟨1⟩]]

/-! Helper lemmas about the dict model. -/

/-- Looking up the key just assigned yields the assigned value. -/
theorem dbGet_dbSet_self (db : Store) (k : Int) (g : HiddenGem) :
    dbGet (dbSet db k g) k = some g := by
  induction db with
  | nil => simp [dbSet, dbGet]
  | cons p rest ih =>
      obtain ⟨k2, g2⟩ := p
      by_cases h : k = k2
      · simp [dbSet, dbGet, h]
      · simp [dbSet, dbGet, h, ih]

/-- Assignment to one key leaves lookups of every other key unchanged. -/
theorem dbGet_dbSet_ne (db : Store) (k j : Int) (g : HiddenGem) (h : j ≠ k) :
    dbGet (dbSet db k g) j = dbGet db j := by
  induction db with
  | nil => simp [dbSet, dbGet, h]
  | cons p rest ih =>
      obtain ⟨k2, g2⟩ := p
      by_cases h2 : k = k2
      · subst h2
        simp [dbSet, dbGet, h]
      · by_cases h3 : j = k2
        · simp [dbSet, dbGet, h2, h3]
        · simp [dbSet, dbGet, h2, h3, ih]

/-- A successful lookup means the key is among the store keys. -/
theorem mem_storeKeys_of_dbGet (db : Store) (k : Int) (g : HiddenGem)
    (h : dbGet db k = some g) : k ∈ storeKeys db := by
  induction db with
  | nil => simp [dbGet] at h
  | cons p rest ih =>
      obtain ⟨k2, g2⟩ := p
      by_cases h2 : k = k2
      · simp [storeKeys, h2]
      · simp [dbGet, h2] at h
        simp [storeKeys] at ih ⊢
        exact Or.inr (ih h)

/-- Unfolding of storeKeys over a cons cell. -/
theorem storeKeys_cons (k : Int) (g : HiddenGem) (rest : Store) :
    storeKeys ((k, g) :: rest) = k :: storeKeys rest := rfl

/-- The keys after an assignment are the assigned key and the old keys. -/
theorem mem_storeKeys_dbSet (db : Store) (k j : Int) (g : HiddenGem) :
    j ∈ storeKeys (dbSet db k g) ↔ j = k ∨ j ∈ storeKeys db := by
  induction db with
  | nil => simp [dbSet, storeKeys]
  | cons p rest ih =>
      obtain ⟨k2, g2⟩ := p
      by_cases h2 : k = k2
      · subst h2
        rw [show dbSet ((k, g2) :: rest) k g = (k, g) :: rest by simp [dbSet]]
        simp only [storeKeys_cons, List.mem_cons]
        tauto
      · rw [show dbSet ((k2, g2) :: rest) k g = (k2, g2) :: dbSet rest k g by
          simp [dbSet, h2]]
        simp only [storeKeys_cons, List.mem_cons, ih]
        tauto

/-- Assignment preserves distinctness of the store keys. -/
theorem nodup_storeKeys_dbSet (db : Store) (k : Int) (g : HiddenGem)
    (h : (storeKeys db).Nodup) : (storeKeys (dbSet db k g)).Nodup := by
  induction db with
  | nil => simp [dbSet, storeKeys]
  | cons p rest ih =>
      obtain ⟨k2, g2⟩ := p
      rw [storeKeys_cons, List.nodup_cons] at h
      by_cases h2 : k = k2
      · subst h2
        rw [show dbSet ((k, g2) :: rest) k g = (k, g) :: rest by simp [dbSet]]
        rw [storeKeys_cons, List.nodup_cons]
        exact h
      · rw [show dbSet ((k2, g2) :: rest) k g = (k2, g2) :: dbSet rest k g by
          simp [dbSet, h2]]
        rw [storeKeys_cons, List.nodup_cons]
        refine ⟨?_, ih h.2⟩
        intro hmem
        rcases (mem_storeKeys_dbSet rest k k2 g).1 hmem with h5 | h5
        · exact h2 h5.symm
        · exact h.1 h5

/-- A successful lookup comes from a pair actually in the store. -/
theorem dbGet_mem (db : Store) (k : Int) (g : HiddenGem)
    (h : dbGet db k = some g) : (k, g) ∈ db := by
  induction db with
  | nil => simp [dbGet] at h
  | cons q rest ih =>
      obtain ⟨k2, g2⟩ := q
      by_cases h2 : k = k2
      · subst h2
        simp [dbGet] at h
        rw [← h]
        exact List.mem_cons_self _ _
      · simp [dbGet, h2] at h
        exact List.mem_cons_of_mem _ (ih h)

/-- Every pair in the store after an assignment either has the assigned key
or was in the store before. -/
theorem mem_dbSet (db : Store) (k : Int) (g : HiddenGem) (p : Int × HiddenGem)
    (hp : p ∈ dbSet db k g) : p.1 = k ∨ p ∈ db := by
  induction db with
  | nil =>
      simp [dbSet] at hp
      left
      rw [hp]
  | cons q rest ih =>
      obtain ⟨k2, g2⟩ := q
      by_cases h2 : k = k2
      · subst h2
        rw [show dbSet ((k, g2) :: rest) k g = (k, g) :: rest by simp [dbSet]] at hp
        rcases List.mem_cons.1 hp with h3 | h3
        · left
          rw [h3]
        · right
          exact List.mem_cons_of_mem _ h3
      · rw [show dbSet ((k2, g2) :: rest) k g = (k2, g2) :: dbSet rest k g by
          simp [dbSet, h2]] at hp
        rcases List.mem_cons.1 hp with h3 | h3
        · right
          rw [h3]
          exact List.mem_cons_self _ _
        · rcases ih h3 with h4 | h4
          · left
            exact h4
          · right
            exact List.mem_cons_of_mem _ h4

/-- Assignment of a key in the randint range preserves the invariant. -/
theorem goodStore_dbSet_inrange (db : Store) (k : Int) (g : HiddenGem)
    (h : GoodStore db) (h0 : 0 ≤ k) (h1 : k ≤ 100000) : GoodStore (dbSet db k g) := by
  obtain ⟨hnd, hr⟩ := h
  refine ⟨nodup_storeKeys_dbSet _ _ _ hnd, ?_⟩
  intro p hp
  rcases mem_dbSet db k g p hp with h4 | h4
  · rw [h4]
    exact ⟨h0, h1⟩
  · exact hr p h4

/-- Assignment of a key that is already live preserves the invariant. -/
theorem goodStore_dbSet_found (db : Store) (i : Int) (g0 g : HiddenGem)
    (h : GoodStore db) (hdb : dbGet db i = some g0) : GoodStore (dbSet db i g) := by
  obtain ⟨hnd, hr⟩ := h
  have hib := hr _ (dbGet_mem db i g0 hdb)
  refine ⟨nodup_storeKeys_dbSet _ _ _ hnd, ?_⟩
  intro p hp
  rcases mem_dbSet db i g p hp with h4 | h4
  · rw [h4]
    exact hib
  · exact hr p h4

/-- Every repository operation preserves the reachable-state invariant. -/
theorem goodStore_applyOp (db : Store) (op : Op) (h : GoodStore db) :
    GoodStore (applyOp db op) := by
  cases op with
  | createOp d nm la lo ty tv uc ws ac im rv =>
      have hv : (d : Nat) ≤ 100000 := by
        have := d.isLt
        omega
      simp only [applyOp, create_hidden_gem]
      exact goodStore_dbSet_inrange db _ _ h (by exact_mod_cast Nat.zero_le _)
        (by exact_mod_cast hv)
  | updateNameOp i nm =>
      simp only [applyOp]
      cases hdb : dbGet db i with
      | none => simpa [update_name, hdb] using h
      | some g0 =>
          simp only [update_name, hdb]
          exact goodStore_dbSet_found db i g0 _ h hdb
  | updateCordinatesOp i la lo =>
      simp only [applyOp]
      cases hdb : dbGet db i with
      | none => simpa [update_cordinates, hdb] using h
      | some g0 =>
          simp only [update_cordinates, hdb]
          exact goodStore_dbSet_found db i g0 _ h hdb
  | updateGemTypeOp i ty =>
      simp only [applyOp]
      cases hdb : dbGet db i with
      | none => simpa [update_gem_type, hdb] using h
      | some g0 =>
          simp only [update_gem_type, hdb]
          exact goodStore_dbSet_found db i g0 _ h hdb
  | updateTimesVisitedOp i tv =>
      simp only [applyOp]
      cases hdb : dbGet db i with
      | none => simpa [update_times_visited, hdb] using h
      | some g0 =>
          simp only [update_times_visited, hdb]
          exact goodStore_dbSet_found db i g0 _ h hdb
  | updateUserCreatedOp i uc =>
      simp only [applyOp]
      cases hdb : dbGet db i with
      | none => simpa [update_user_created, hdb] using h
      | some g0 =>
          simp only [update_user_created, hdb]
          exact goodStore_dbSet_found db i g0 _ h hdb
  | updateWebsiteLinkOp i ws =>
      simp only [applyOp]
      cases hdb : dbGet db i with
      | none => simpa [update_website_link, hdb] using h
      | some g0 =>
          simp only [update_website_link, hdb]
          exact goodStore_dbSet_found db i g0 _ h hdb
  | updateAccessibilityOp i ac =>
      simp only [applyOp]
      cases hdb : dbGet db i with
      | none => simpa [update_accessibility, hdb] using h
      | some g0 =>
          simp only [update_accessibility, hdb]
          exact goodStore_dbSet_found db i g0 _ h hdb
  | updateGemImagesOp i im =>
      simp only [applyOp]
      cases hdb : dbGet db i with
      | none => simpa [update_gem_images, hdb] using h
      | some g0 =>
          simp only [update_gem_images, hdb]
          exact goodStore_dbSet_found db i g0 _ h hdb
  | updateReviewsOp i rv =>
      simp only [applyOp]
      cases hdb : dbGet db i with
      | none => simpa [update_reviews, hdb] using h
      | some g0 =>
          simp only [update_reviews, hdb]
          exact goodStore_dbSet_found db i g0 _ h hdb
  | clearOp =>
      refine ⟨?_, ?_⟩ <;> simp [applyOp, clear_db, storeKeys]

/-- The invariant holds along any operation sequence. -/
theorem goodStore_runOps (ops : List Op) (db : Store) (h : GoodStore db) :
    GoodStore (runOps db ops) := by
  induction ops generalizing db with
  | nil => exact h
  | cons op rest ih => exact ih _ (goodStore_applyOp db op h)

/-- A store satisfying the invariant holds at most 100001 records. -/
theorem store_length_le (db : Store) (hg : GoodStore db) : db.length ≤ 100001 := by
  obtain ⟨hnd, hr⟩ := hg
  have h1 : (storeKeys db).toFinset.card = (storeKeys db).length :=
    List.toFinset_card_of_nodup hnd
  have h2 : (storeKeys db).toFinset ⊆ Finset.Icc (0 : Int) 100000 := by
    intro j hj
    rw [List.mem_toFinset] at hj
    rcases List.mem_map.1 hj with ⟨p, hp, rfl⟩
    exact Finset.mem_Icc.2 (hr p hp)
  have h3 := Finset.card_le_card h2
  have h4 : (Finset.Icc (0 : Int) 100000).card = 100001 := by
    rw [Int.card_Icc]
    decide
  have h5 : (storeKeys db).length = db.length := List.length_map _ _
  omega

/-! Claim theorems. -/

/-- C1: the claim says every identifier returned by create_hidden_gem is
distinct from every previously issued live identifier; the code violates it.
With the randint oracle drawing 5 twice, the second create returns
identifier 5 even though 5 was issued by the first create and was still
live in the store when the second create ran. -/
theorem c1_create_collision_reissues_live_id :
    secondCreate.2.gem_id = firstCreate.2.gem_id ∧
    dbGet firstCreate.1 secondCreate.2.gem_id = some firstCreate.2 := by
  decide

/-- C2: the claim says every single-record getter and every update on a dead
identifier fails with a typed NotFoundError carrying that identifier; the
code violates it for the getters.  On an empty store every getter raises
AttributeError (from dereferencing the None of dict.get), which carries
only an attribute name and is not a not-found error carrying the
identifier; the updates raise ValueError with the identifier. -/
theorem c2_getters_raise_attribute_fault_not_notfound :
    get_name ([] : Store) 0 = .error (.attributeError "name") ∧
    get_cordinates ([] : Store) 0 = .error (.attributeError "latitude") ∧
    get_gem_type ([] : Store) 0 = .error (.attributeError "gem_type") ∧
    get_times_visited ([] : Store) 0 = .error (.attributeError "times_visited") ∧
    get_user_created ([] : Store) 0 = .error (.attributeError "user_created") ∧
    get_website_link ([] : Store) 0 = .error (.attributeError "website_link") ∧
    get_accessibility ([] : Store) 0 = .error (.attributeError "accessibility") ∧
    get_gem_images ([] : Store) 0 = .error (.attributeError "gem_images") ∧
    get_reviews ([] : Store) 0 = .error (.attributeError "reviews") ∧
    isNotFoundErrorCarrying (PyErr.attributeError "name") 0 = false ∧
    (update_name ([] : Store) 0 "x").1 = .error (.valueErrorNotFound 0) ∧
    isNotFoundErrorCarrying (PyErr.valueErrorNotFound 0) 0 = true :=
  ⟨rfl, rfl, rfl, rfl, rfl, rfl, rfl, rfl, rfl, rfl, rfl, rfl⟩

/-- C3: the claim says after n creates and no clear the mapping has exactly
n entries; the code violates it.  After the two creates whose randint
oracle draws 5 both times, get_all_hidden_gems holds a single entry, not
two, because the second create overwrote the first; clearing does empty
the store. -/
theorem c3_collision_loses_an_entry :
    (get_all_hidden_gems secondCreate.1).length = 1 ∧
    get_all_hidden_gems (clear_db secondCreate.1) = [] := by
  decide

/-- C4: the claim says no operation other than clear_db ever removes or
replaces an existing record; the code violates it.  The second create with
a colliding draw replaces the live record named a under identifier 5 with
the new record named b, with no clear_db in between. -/
theorem c4_create_replaces_live_record :
    firstCreate.2.name = "a" ∧
    dbGet secondCreate.1 firstCreate.2.gem_id = some secondCreate.2 ∧
    secondCreate.2.name = "b" ∧
    decide (dbGet secondCreate.1 firstCreate.2.gem_id = some firstCreate.2) = false := by
  decide

/-- C5: for a live identifier, each update operation returns and stores the
record with only the named field overwritten, leaves every other
identifier untouched, and the matching getter then returns the new value;
the block updateGetIsolated spells this out for all nine update
operations. -/
theorem c5_update_then_get_isolated (db : Store) (i : Int) (g : HiddenGem)
    (h : dbGet db i = some g) (nm : String) (la lo : Rat) (ty : String)
    (tv : Int) (uc ws : String) (ac : List Bool) (im : List String)
    (rv : List Reviews) :
    updateGetIsolated db i g nm la lo ty tv uc ws ac im rv := by
  unfold updateGetIsolated
  refine ⟨⟨?_, ?_, ?_, ?_⟩, ⟨?_, ?_, ?_, ?_⟩, ⟨?_, ?_, ?_, ?_⟩, ⟨?_, ?_, ?_, ?_⟩,
    ⟨?_, ?_, ?_, ?_⟩, ⟨?_, ?_, ?_, ?_⟩, ⟨?_, ?_, ?_, ?_⟩, ⟨?_, ?_, ?_, ?_⟩,
    ⟨?_, ?_, ?_, ?_⟩⟩ <;>
    simp only [update_name, update_cordinates, update_gem_type, update_times_visited,
      update_user_created, update_website_link, update_accessibility,
      update_gem_images, update_reviews, h] <;>
    first
    | (intro j hj
       exact dbGet_dbSet_ne db i j _ hj)
    | rfl
    | simp [get_name, get_cordinates, get_gem_type, get_times_visited,
        get_user_created, get_website_link, get_accessibility, get_gem_images,
        get_reviews, dbGet_dbSet_self]

/-- Witness for C5 at a concrete live record. -/
theorem c5_witness :
    dbGet demoDb 5 = some demoGem ∧
    updateGetIsolated demoDb 5 demoGem "Old Windmill" 3 4 "park" 7 "bob" "url"
      [false] ["img"] [⟨9⟩] :=
  ⟨rfl,
    c5_update_then_get_isolated demoDb 5 demoGem rfl "Old Windmill" 3 4
      "park" 7 "bob" "url" [false] ["img"] [⟨9⟩]⟩

/-- C6: get_hidden_gem_by_id on the identifier of the record that
create_hidden_gem just returned yields exactly that record, and the record
carries every argument of the create call unchanged (its identifier being
the drawn one). -/
theorem c6_create_then_get_by_id_returns_args (db : Store) (draw : Fin 100001)
    (nm : String) (la lo : Rat) (ty : String) (tv : Int) (uc ws : String)
    (ac : List Bool) (im : List String) (rv : List Reviews) :
    get_hidden_gem_by_id (create_hidden_gem db draw nm la lo ty tv uc ws ac im rv).1
        (create_hidden_gem db draw nm la lo ty tv uc ws ac im rv).2.gem_id =
      some (create_hidden_gem db draw nm la lo ty tv uc ws ac im rv).2 ∧
    (create_hidden_gem db draw nm la lo ty tv uc ws ac im rv).2 =
      ⟨nm, ((draw : Nat) : Int), la, lo, ty, tv, uc, ws, ac, im, rv⟩ := by
  constructor
  · simp [create_hidden_gem, get_hidden_gem_by_id, dbGet_dbSet_self]
  · rfl

/-- C7: get_hidden_gem_by_id returns the stored record when the identifier
is live and the explicit no-record signal None when it is not; it is a
total function (never an exception), and on an empty store the lookup of
999999 yields the no-record signal. -/
theorem c7_get_by_id_never_fails (db : Store) (i : Int) :
    (∀ g, dbGet db i = some g → get_hidden_gem_by_id db i = some g) ∧
    (dbGet db i = none → get_hidden_gem_by_id db i = none) ∧
    get_hidden_gem_by_id ([] : Store) 999999 = none :=
  ⟨fun _ h => h, fun h => h, rfl⟩

/-- Witness for C7 on a concrete store, live and dead identifier. -/
theorem c7_witness :
    get_hidden_gem_by_id demoDb 5 = some demoGem ∧
    get_hidden_gem_by_id demoDb 7 = none :=
  ⟨(c7_get_by_id_never_fails demoDb 5).1 demoGem rfl,
    (c7_get_by_id_never_fails demoDb 7).2.1 rfl⟩

/-- C8: every update operation on an identifier that is not live raises
ValueError carrying that identifier and leaves the store exactly as it
was, so in particular no record is created under the identifier. -/
theorem c8_update_missing_fails_and_store_unchanged (db : Store) (i : Int)
    (h : dbGet db i = none) (nm : String) (la lo : Rat) (ty : String)
    (tv : Int) (uc ws : String) (ac : List Bool) (im : List String)
    (rv : List Reviews) :
    updatesFailUnchanged db i nm la lo ty tv uc ws ac im rv := by
  unfold updatesFailUnchanged
  refine ⟨?_, ?_, ?_, ?_, ?_, ?_, ?_, ?_, ?_⟩ <;>
    simp [update_name, update_cordinates, update_gem_type, update_times_visited,
      update_user_created, update_website_link, update_accessibility,
      update_gem_images, update_reviews, h]

/-- Witness for C8 on the empty store and identifier 0. -/
theorem c8_witness :
    dbGet ([] : Store) 0 = none ∧
    updatesFailUnchanged ([] : Store) 0 "x" 1 2 "y" 3 "z" "q" [true] ["m"] [⟨4⟩] :=
  ⟨rfl, c8_update_missing_fails_and_store_unchanged [] 0 rfl "x" 1 2 "y" 3 "z"
    "q" [true] ["m"] [⟨4⟩]⟩

/-- C9: whatever the module globals hold, calling get_gem_repository raises
before returning: the test `if _user_repo is None` reads _user_repo, which
Python treats as an unassigned local of the function (it is assigned later
in the body and the only global declaration names _gem_repo instead), so
the call raises UnboundLocalError, a subclass of NameError, and no caller
ever obtains a repository instance through this entry point. -/
theorem c9_get_gem_repository_always_raises (moduleGlobals : List (String × PyValue)) :
    get_gem_repository moduleGlobals =
      Except.error (PyErr.unboundLocalError "_user_repo") ∧
    PyErr.isNameError (PyErr.unboundLocalError "_user_repo") = true :=
  ⟨rfl, rfl⟩

/-- C10: along every operation sequence from the empty store, every key in
the store lies in the randint range 0..100000, and hence the store never
holds more than 100001 records. -/
theorem c10_keys_in_randint_range (ops : List Op) :
    (∀ p ∈ runOps [] ops, 0 ≤ p.1 ∧ p.1 ≤ 100000) ∧
    (runOps [] ops).length ≤ 100001 := by
  have h : GoodStore (runOps [] ops) :=
    goodStore_runOps ops [] ⟨List.nodup_nil, by simp⟩
  exact ⟨h.2, store_length_le _ h⟩

/-- Witness for C10 on a concrete one-create trace. -/
theorem c10_witness :
    ((0 : Int) ≤ 5 ∧ (5 : Int) ≤ 100000) ∧ (runOps [] demoOps).length ≤ 100001 :=
  ⟨(c10_keys_in_randint_range demoOps).1 (5, firstCreate.2) (by decide),
    (c10_keys_in_randint_range demoOps).2⟩
